import Mathlib

/-!
Verification development for the `jpl-tour-bot` repository.

The Python sources are shallowly embedded as executable Lean definitions:

* `state.py`    : `State`, `State.from_file`, `State.set_field`
* `bot.py`      : `run_bot`, `scrape_tour`, `get_next_tour_release_date`,
                  `get_tour_availability_after_search`, `open_tour_reservation`
                  and its date/countdown parsing
* `__main__.py` : `mainRun`

Browser interactions (element lookups, waits, clicks) are external
collaborators: each lookup result is an oracle input (`Option`/`Except`
parameter) to the embedded functions.  Python exceptions are modelled with
`Except PyError`; in-place mutation of the `State` object is modelled by
explicit state passing, with the post-exception state returned alongside the
error (Python mutations survive a raised exception).
-/

namespace JplTourBot

/-- Python exception values raised by the embedded code. -/
inductive PyError where
  | attributeError
  | valueError (msg : String)
  | noSuchElement (msg : String)
  | typeError (msg : String)
  | jsonDecodeError (msg : String)
  | other (msg : String)
deriving DecidableEq

/-- A notification of an important state change (`notification.py`):
a named tuple of a title and a content string. -/
structure Notification where
  title : String
  content : String
deriving DecidableEq

/-- Default value of the `NEXT_TOUR_MSG` field (the class attribute
`State.NEXT_TOUR_MSG` in `state.py`). -/
def NEXT_TOUR_MSG_default : String := "(empty)"

/-- The persistent state dataclass (`state.py`, lines 18-25).  It declares
exactly these four string fields with these defaults; in particular there is
no `PRESS_RESERVE_BUTTON` field. -/
structure State where
  BROWSER_SESSION : String := ""
  NEXT_TOUR_MSG : String := NEXT_TOUR_MSG_default
  TOUR_AVAILABLE : String := ""
  TOUR_TABLE : String := ""
deriving DecidableEq

/-- The field-default state, `State()`. -/
def defaultState : State := {}

/-- Python `getattr(state, field)` on a `State` instance: the four declared
dataclass fields are readable; any other name raises `AttributeError`,
modelled by `none`. -/
def getattrField (s : State) (field : String) : Option String :=
  if field = "BROWSER_SESSION" then some s.BROWSER_SESSION
  else if field = "NEXT_TOUR_MSG" then some s.NEXT_TOUR_MSG
  else if field = "TOUR_AVAILABLE" then some s.TOUR_AVAILABLE
  else if field = "TOUR_TABLE" then some s.TOUR_TABLE
  else none

/-- Python `setattr(state, field, v)` for the four declared fields.
`State.set_field` only calls this after `getattr` succeeded, so the
fall-through branch (which in Python would add a fresh attribute) is
unreachable from the embedded code and returns the state unchanged. -/
def setattrField (s : State) (field v : String) : State :=
  if field = "BROWSER_SESSION" then { s with BROWSER_SESSION := v }
  else if field = "NEXT_TOUR_MSG" then { s with NEXT_TOUR_MSG := v }
  else if field = "TOUR_AVAILABLE" then { s with TOUR_AVAILABLE := v }
  else if field = "TOUR_TABLE" then { s with TOUR_TABLE := v }
  else s

/-- `State.set_field` (`state.py`, lines 51-68): read the current value of
`field` with `getattr` (raising `AttributeError` for an undeclared name),
return `None` without mutating when the new value equals the current one,
otherwise set the field and return a `Notification` with the given title and
the new value. -/
def State.set_field (s : State) (field msg notification_title : String) :
    Except PyError (Option Notification × State) :=
  match getattrField s field with
  | none => .error .attributeError
  | some cur =>
    if msg = cur then .ok (none, s)
    else .ok (some ⟨notification_title, msg⟩, setattrField s field msg)

/-- Contents of the state file as seen by `State.from_file`: the file may be
missing, hold text that is not valid JSON (then `json.load` raises), hold
valid JSON that is not an object (then `State(**json)` raises `TypeError`,
which is caught), or hold a JSON object, modelled as its string key/value
pairs (JSON objects have distinct keys after parsing). -/
inductive StateFile where
  | missing
  | invalidJson (raw : String)
  | jsonNonObject
  | jsonObject (kvs : List (String × String))

/-- The declared dataclass field names of `State`, the only keyword
arguments `State(**json)` accepts. -/
def stateFieldNames : List String :=
  ["BROWSER_SESSION", "NEXT_TOUR_MSG", "TOUR_AVAILABLE", "TOUR_TABLE"]

/-- `State.from_file` (`state.py`, lines 27-49).  A missing file yields the
default state.  `json.load` runs OUTSIDE the `try` block, so a file whose
text is not valid JSON raises `json.JSONDecodeError` out of `from_file`.
Only the `State(**state_json)` construction is guarded: if it raises (an
unexpected keyword argument, or a non-mapping), the exception is caught, a
warning is logged and the default state is returned. -/
def State.from_file : StateFile → Except PyError State
  | .missing => .ok {}
  | .invalidJson _ =>
      .error (.jsonDecodeError "Expecting value: line 1 column 1 (char 0)")
  | .jsonNonObject => .ok {}
  | .jsonObject kvs =>
      if kvs.all fun kv => stateFieldNames.contains kv.1 then
        .ok (kvs.foldl (fun st kv => setattrField st kv.1 kv.2) {})
      else .ok {}

/-! Text helpers.  Python string methods are re-implemented structurally over
the character list of the string, so that every definition evaluates by
kernel reduction. -/

/-- Characters Python `str.strip()` removes. -/
def isPySpace (c : Char) : Bool :=
  c = ' ' || c = '\t' || c = '\n' || c = '\x0d' || c = '\x0b' || c = '\x0c'

/-- Python `str.strip()`: drop leading and trailing whitespace. -/
def pyStrip (s : String) : String :=
  String.mk (((s.data.dropWhile isPySpace).reverse.dropWhile isPySpace).reverse)

/-- Python `str.lower()` (ASCII case suffices for the compared tokens). -/
def pyLower (s : String) : String :=
  String.mk (s.data.map Char.toLower)

/-- Split a character list at every occurrence of `sep`. -/
def splitOnCharAux (sep : Char) : List Char → List Char → List (List Char)
  | [], acc => [acc.reverse]
  | c :: rest, acc =>
    if c = sep then acc.reverse :: splitOnCharAux sep rest []
    else splitOnCharAux sep rest (c :: acc)

/-- Split a string at every occurrence of the character `sep` (used to model
the fixed separators of the `strptime` format strings). -/
def splitOnChar (sep : Char) (s : String) : List String :=
  (splitOnCharAux sep s.data []).map String.mk

/-- Numeric value of a digit string. -/
def digitsVal (l : List Char) : Nat :=
  l.foldl (fun acc c => acc * 10 + (c.toNat - 48)) 0

/-- A `strptime` numeric field of at most `maxLen` digits whose value is in
`[lo, hi]`: `none` when the text is not such a number (then
`datetime.strptime` raises `ValueError`). -/
def parseNumField (maxLen lo hi : Nat) (s : String) : Option Nat :=
  if s.data ≠ [] && s.data.length ≤ maxLen && s.data.all Char.isDigit then
    let v := digitsVal s.data
    if lo ≤ v && v ≤ hi then some v else none
  else none

/-- Number of days in a month, Gregorian calendar (as `datetime` validates). -/
def daysInMonth (y m : Nat) : Nat :=
  if m = 2 then
    if y % 4 = 0 && (y % 100 ≠ 0 || y % 400 = 0) then 29 else 28
  else if m = 4 || m = 6 || m = 9 || m = 11 then 30
  else 31

/-- Order-preserving key of a calendar date (day granularity: tour dates
parse to midnight, and the requested range is compared at the same
granularity). -/
def dateKey (y m d : Nat) : Nat := y * 10000 + m * 100 + d

/-- `datetime.strptime(text, '%m/%d/%Y')` (`bot.py`, line 344): month of 1-2
digits in 1..12, day of 1-2 digits in 1..31, year of exactly 4 digits (at
least 1), separated by `/` with nothing left over, and the day must exist in
that month.  `none` models the `ValueError` raised otherwise. -/
def parseDateMDY (s : String) : Option Nat :=
  match splitOnChar '/' s with
  | [ms, ds, ys] =>
    match parseNumField 2 1 12 ms, parseNumField 2 1 31 ds,
          parseNumField 4 1 9999 ys with
    | some m, some d, some y =>
      if ys.data.length = 4 && d ≤ daysInMonth y m then some (dateKey y m d)
      else none
    | _, _, _ => none
  | _ => none

/-- `datetime.strptime(text, '%M:%S')` (`bot.py`, line 368): minutes and
seconds of 1-2 digits each, both at most 59, separated by `:` with nothing
left over.  `none` models the `ValueError` raised otherwise. -/
def parseClockMS (s : String) : Option (Nat × Nat) :=
  match splitOnChar ':' s with
  | [ms, ss] =>
    match parseNumField 2 0 59 ms, parseNumField 2 0 59 ss with
    | some m, some sec => some (m, sec)
    | _, _ => none
  | _ => none

/-- Python `min(list)`: raises `ValueError` on an empty sequence. -/
def pyMin : List Nat → Except PyError Nat
  | [] => .error (.valueError "min() arg is an empty sequence")
  | h :: t => .ok (t.foldl Nat.min h)

/-- Python `max(list)`: raises `ValueError` on an empty sequence. -/
def pyMax : List Nat → Except PyError Nat
  | [] => .error (.valueError "max() arg is an empty sequence")
  | h :: t => .ok (t.foldl Nat.max h)

/-- The details of an available tour (`bot.py`, `Tour` named tuple): the date
cell text, the times cell text, and the row's Reserve button - an opaque
element handle, or `none` when the per-row button lookup found nothing. -/
structure Tour where
  DATE : String
  TIMES : String
  RESERVE_BUTTON : Option Nat
deriving DecidableEq

/-- The list comprehension of `bot.py` lines 341-345, after `min` and `max`
of the range have been evaluated: keep the tours whose parsed date `k`
satisfies `lo ≤ k ≤ hi`.  `strptime` is applied to every row in order, and
the first row whose date does not parse raises `ValueError`, aborting the
whole comprehension. -/
def filterToursParsed (lo hi : Nat) : List Tour → Except PyError (List Tour)
  | [] => .ok []
  | t :: rest =>
    match parseDateMDY t.DATE with
    | none => .error (.valueError "time data does not match format %m/%d/%Y")
    | some k =>
      (filterToursParsed lo hi rest).map
        fun r => if lo ≤ k && k ≤ hi then t :: r else r

/-- `tours_in_range` of `bot.py` lines 341-345.  When `tour_details` is
empty the comprehension body never runs, so `min`/`max` of the range are
never evaluated; otherwise an empty range raises `ValueError` from `min`. -/
def toursInRange (tours : List Tour) (range : List Nat) :
    Except PyError (List Tour) :=
  match tours with
  | [] => .ok []
  | _ => do
    let lo ← pyMin range
    let hi ← pyMax range
    filterToursParsed lo hi tours

/-- Reservation-candidate selection (`bot.py`, lines 340-351): compute the
in-range tours and pick the first one, or no candidate when none matched. -/
def selectReservationCandidate (tours : List Tour) (range : List Nat) :
    Except PyError (Option Tour) :=
  (toursInRange tours range).map List.head?

/-- The countdown wait of `bot.py` lines 362-383, given the countdown
element's text: parse it as `%M:%S` (raising `ValueError` when it does not
parse), then sleep for the parsed countdown plus the fixed 5-minute margin,
`timedelta(minutes=m+5, seconds=s)`.  The sleep sits in a
`try/except KeyboardInterrupt`, and both the interrupted and the completed
branch fall through to the confirmation prompt; the returned pair is the
planned wait in seconds and the message logged by the taken branch. -/
def reservationWait (clockText : String) (interrupted : Bool) :
    Except PyError (Nat × String) :=
  match parseClockMS clockText with
  | none => .error (.valueError "time data does not match format %M:%S")
  | some (m, s) =>
    .ok ((m + 5) * 60 + s, if interrupted then "Continuing early." else "Finished waiting.")

/-- The confirmation prompt of `bot.py` lines 385-402, deciding the value of
`continue_pressing_reserve_button` (initialised `True`).  With an
interactive stdin, read an answer (`none` models a `KeyboardInterrupt`,
keeping the default); an answer is affirmative when its lowercased, stripped
text is one of `y`, `yes`, `t`, `true`, and then the result is `False`.
Without an interactive stdin a warning is logged and the default stands. -/
def confirmationDecision (stdinTTY : Bool) (answer : Option String) : Bool :=
  if stdinTTY then
    match answer with
    | none => true
    | some a => !(["y", "yes", "t", "true"].contains (pyStrip (pyLower a)))
  else true

/-- `_open_tour_reservation` (`bot.py`, lines 328-402): find the tours in
the requested range (aborting on an unparsable date), return `True` when
none matched; otherwise take the first match, raise `NoSuchElementException`
when its button handle is absent, press it, wait out the countdown
(`clockText` is the outcome of waiting for and reading the clock element),
then solicit the operator's confirmation. -/
def open_tour_reservation (tours : List Tour) (range : List Nat)
    (clockText : Except PyError String) (interrupted stdinTTY : Bool)
    (answer : Option String) : Except PyError Bool := do
  let inRange ← toursInRange tours range
  match inRange with
  | [] => .ok true
  | sel :: _ =>
    match sel.RESERVE_BUTTON with
    | none => .error (.noSuchElement "Could not retrieve button for tour")
    | some _ => do
      let text ← clockText
      let _ ← reservationWait text interrupted
      .ok (confirmationDecision stdinTTY answer)

/-- Decidable equality of `Except` values, for evaluating the embedded
functions on concrete inputs. -/
instance {ε α : Type} [DecidableEq ε] [DecidableEq α] :
    DecidableEq (Except ε α) := fun x y =>
  match x, y with
  | .error a, .error b =>
    if h : a = b then .isTrue (by rw [h])
    else .isFalse (by intro hc; injection hc; contradiction)
  | .ok a, .ok b =>
    if h : a = b then .isTrue (by rw [h])
    else .isFalse (by intro hc; injection hc; contradiction)
  | .error _, .ok _ => .isFalse (by intro hc; injection hc)
  | .ok _, .error _ => .isFalse (by intro hc; injection hc)

/-- Log severities of the records the run's log-capture handler sorts into
its warning and error lists (`log_utils.py`, lines 45-48). -/
inductive LogLevel where
  | info
  | warning
  | error
deriving DecidableEq

/-- A captured log record: its severity and message. -/
structure LogRec where
  level : LogLevel
  message : String
deriving DecidableEq

/-- `markdown_strings.code_block(text, language)` (external library): wrap
the text in a fenced markdown code block tagged with the language. -/
def codeBlock (text language : String) : String :=
  "```" ++ language ++ "\n" ++ text ++ "\n```"

/-- `_format_available_tours_table` (`bot.py`, lines 313-325): render only
the DATE and TIMES cells of each tour under the header row without its last
(Reserve) column.  The external `tabulate` renderer (psql format) is
abstracted as a deterministic textual rendering of the same data. -/
def format_available_tours_table (tour_details : List Tour)
    (table_header : List String) : String :=
  String.intercalate "\n"
    ((String.intercalate " | " table_header.dropLast) ::
      tour_details.map fun t => t.DATE ++ " | " ++ t.TIMES)

/-- `_get_next_tour_release_date` (`bot.py`, lines 130-146): initialise the
message to the class attribute `State.NEXT_TOUR_MSG` (the default
`"(empty)"`, not the previously persisted value), then overwrite it with the
text of the element following the heading when that element was found. -/
def get_next_tour_release_date (msgElementText : Option String) : String :=
  match msgElementText with
  | some t => t
  | none => NEXT_TOUR_MSG_default

/-- `_get_tour_availability_after_search` (`bot.py`, lines 216-243):
after waiting for the results container (`waitResult` is that wait's
outcome), probe for the inline error label (lookup logging suppressed); its
stripped text is the summary when present.  Otherwise read the tour-count
element; its stripped text is the summary when present, and the literal
`"Not found."` when neither element exists. -/
def get_tour_availability_after_search (waitResult : Except PyError Unit)
    (errMsgElementText : Option String) (tourCountText : Option String) :
    Except PyError String :=
  match waitResult with
  | .error e => .error e
  | .ok _ =>
    match errMsgElementText with
    | some t => .ok (pyStrip t)
    | none =>
      match tourCountText with
      | some t => .ok (pyStrip t)
      | none => .ok "Not found."

/-- The change-detection step for the release message (`bot.py`, lines
97-99): scrape the message and pass it through `set_field`. -/
def nextTourMsgStep (s : State) (msgElementText : Option String) :
    Except PyError (Option Notification × State) :=
  s.set_field "NEXT_TOUR_MSG" (get_next_tour_release_date msgElementText)
    "Next tour message has changed"

/-- The browser-observation oracle for one `_scrape_tour` run: what each
element lookup or wait would yield on the scraped page. -/
structure ScrapeInputs where
  /-- Text of the element after the `Next Tours Release Date` heading. -/
  nextMsgElement : Option String
  /-- Outcome of `_submit_tour_search_form` (fatal exceptions propagate). -/
  formResult : Except PyError Unit
  /-- Outcome of waiting for the results container to become visible. -/
  resultsWait : Except PyError Unit
  /-- Text of the inline `no tours available` error label, when present. -/
  errMsgElement : Option String
  /-- Text of the tour-count element, when present. -/
  tourCountElement : Option String
  /-- `outerHTML` of the `available_tours` container, when found
  (`get_attribute('outerHTML') or ''` already applied). -/
  tableContainer : Option String
  /-- Outcome of `_parse_available_tours_table`: the tour rows and the
  reordered header, or the exception it raised. -/
  tableParse : Except PyError (List Tour × List String)

/-- Result of the embedded `_scrape_tour`: the returned value or raised
exception, the `State` object as mutated so far, and the warning/error-level
log records emitted. -/
structure ScrapeResult where
  result : Except PyError (List Notification × List Tour)
  state : State
  logs : List LogRec
deriving DecidableEq

/-- `_scrape_tour` (`bot.py`, lines 80-127): scrape the release message and
pass it through `set_field`; submit the search form; read the availability
summary and pass it through `set_field`; then, when the `available_tours`
container exists, parse it into rows - on any parse exception log it with
`LOGGER.exception` (an error-level record) and fall back to the raw
container markup wrapped as an html code block, otherwise render the rows as
a text code block - and pass the resulting table text through `set_field` in
the `finally` block.  Returns the collected notifications and the parsed
rows (still `[]` when parsing failed). -/
def scrape_tour (s : State) (inp : ScrapeInputs) : ScrapeResult :=
  match nextTourMsgStep s inp.nextMsgElement with
  | .error e => ⟨.error e, s, []⟩
  | .ok (n1, s1) =>
    let msgs1 := n1.toList
    match inp.formResult with
    | .error e => ⟨.error e, s1, []⟩
    | .ok _ =>
      match get_tour_availability_after_search inp.resultsWait
          inp.errMsgElement inp.tourCountElement with
      | .error e => ⟨.error e, s1, []⟩
      | .ok availMsg =>
        match s1.set_field "TOUR_AVAILABLE" availMsg
            "Tour availability has changed" with
        | .error e => ⟨.error e, s1, []⟩
        | .ok (n2, s2) =>
          let msgs2 := msgs1 ++ n2.toList
          match inp.tableContainer with
          | none => ⟨.ok (msgs2, []), s2, []⟩
          | some rawHtml =>
            match inp.tableParse with
            | .error _ =>
              let logs : List LogRec :=
                [⟨.error, "Could not parse the table of available tours"⟩]
              match s2.set_field "TOUR_TABLE" (codeBlock rawHtml "html")
                  "Tour details" with
              | .error e => ⟨.error e, s2, logs⟩
              | .ok (n3, s3) => ⟨.ok (msgs2 ++ n3.toList, []), s3, logs⟩
            | .ok (tour_details, table_header) =>
              match s2.set_field "TOUR_TABLE"
                  (codeBlock
                    (format_available_tours_table tour_details table_header)
                    "text")
                  "Tour details" with
              | .error e => ⟨.error e, s2, []⟩
              | .ok (n3, s3) => ⟨.ok (msgs2 ++ n3.toList, tour_details), s3, []⟩

/-- The oracle inputs of one `run_bot` invocation. -/
structure RunBotInputs where
  /-- Session identifier of the freshly started browser. -/
  sessionId : String
  /-- Page observations for `_scrape_tour`. -/
  scrape : ScrapeInputs
  /-- `args.reserve_date_range`: `none` when the option was not given. -/
  reserveDateRange : Option (List Nat)
  /-- Outcome of waiting for and reading the countdown clock element. -/
  clockText : Except PyError String
  /-- Whether the countdown sleep receives a `KeyboardInterrupt`. -/
  interrupted : Bool
  /-- Whether stdin is a tty. -/
  stdinTTY : Bool
  /-- The operator's typed confirmation (`none` models an interrupt). -/
  answer : Option String

/-- Result of the embedded `run_bot`: returned notifications or raised
exception, the `State` object as mutated (mutations survive the exception),
and the captured log records. -/
structure BotResult where
  result : Except PyError (List Notification)
  state : State
  logs : List LogRec
deriving DecidableEq

/-- `run_bot` (`bot.py`, lines 40-77).  Guard: when the new browser session
identifier equals the stored one, raise `ValueError`; otherwise assign it
directly to `state.BROWSER_SESSION` (line 64, not via `set_field`), run
`_scrape_tour`, and then - when a reservation range was requested and rows
were parsed - evaluate `state.PRESS_RESERVE_BUTTON` (line 69), a field
`State` does not declare, so the attribute read raises `AttributeError`;
were it to yield a truthy value, `_open_tour_reservation` would run and its
decision would be written back through `set_field`, the returned
notification discarded.  The start-delay jitter and the browser
acquisition/teardown in `finally` are external effects not modelled. -/
def run_bot (s : State) (inp : RunBotInputs) : BotResult :=
  if inp.sessionId = s.BROWSER_SESSION then
    ⟨.error (.valueError
      "The session ID has not changed from the saved state. Aborting."), s, []⟩
  else
    let s1 := { s with BROWSER_SESSION := inp.sessionId }
    match scrape_tour s1 inp.scrape with
    | ⟨.error e, s2, logs⟩ => ⟨.error e, s2, logs⟩
    | ⟨.ok (msgs, tour_details), s2, logs⟩ =>
      match inp.reserveDateRange with
      | none => ⟨.ok msgs, s2, logs⟩
      | some range =>
        if range = [] then ⟨.ok msgs, s2, logs⟩
        else if tour_details = [] then ⟨.ok msgs, s2, logs⟩
        else
          match getattrField s2 "PRESS_RESERVE_BUTTON" with
          | none => ⟨.error .attributeError, s2, logs⟩
          | some v =>
            -- Unreachable: `getattrField` yields only the four declared
            -- fields.  Written out as the source reads, with the stored
            -- value's Python truthiness as non-emptiness of its text.
            if v = "" then ⟨.ok msgs, s2, logs⟩
            else
              match open_tour_reservation tour_details range inp.clockText
                  inp.interrupted inp.stdinTTY inp.answer with
              | .error e => ⟨.error e, s2, logs⟩
              | .ok cont =>
                match s2.set_field "PRESS_RESERVE_BUTTON"
                    (if cont then "True" else "False")
                    "Continue pressing reserve button" with
                | .error e => ⟨.error e, s2, logs⟩
                | .ok (_, s3) => ⟨.ok msgs, s3, logs⟩

/-- The message a captured or suppressed exception contributes to the
run's error list. -/
def pyErrorMessage : PyError → String
  | .attributeError => "AttributeError: PRESS_RESERVE_BUTTON"
  | .valueError m => "ValueError: " ++ m
  | .noSuchElement m => "NoSuchElementException: " ++ m
  | .typeError m => "TypeError: " ++ m
  | .jsonDecodeError m => "json.decoder.JSONDecodeError: " ++ m
  | .other m => m

/-- Inputs of one whole process run (`main` in `__main__.py`).
`Args.parse_args` is abstracted as succeeding (its failure precedes state
loading); `postRaises` is whether `post_discord` raises (for instance a
network failure from `requests.post`). -/
structure MainInputs where
  stateFile : StateFile
  bot : RunBotInputs
  /-- Whether `args.notify` was given. -/
  notify : Bool
  postRaises : Bool

/-- Observable outcome of one `main` run: every state passed to
`save_to_file`, in order; whether an exception escaped `main` (process
crash); and the collected error, warning and notification lists. -/
structure MainResult where
  savedStates : List State
  uncaught : Bool
  errors : List String
  warnings : List String
  notifications : List Notification
deriving DecidableEq

/-- `main` (`__main__.py`, lines 20-51).  Inside the `StoreWarningsErrors`
block: load the state and run the bot; the handler collects warning- and
error-level log records, and `StoreWarningsErrors.__exit__` appends any
escaping `Exception` to the error list and suppresses it (`log_utils.py`,
lines 85-90; every exception the embedding models is an `Exception`).  If
the state file held invalid JSON, `from_file` raised, so `state` stays
`None` and nothing is saved.  After the block, when there is anything to
report and `--notify` was given, `post_discord` runs OUTSIDE any handler:
if it raises, the exception escapes `main` and `save_to_file` never runs.
Otherwise the state, when loaded, is saved exactly once. -/
def mainRun (inp : MainInputs) : MainResult :=
  match State.from_file inp.stateFile with
  | .error e =>
    let errors := [pyErrorMessage e]
    if inp.notify && inp.postRaises then ⟨[], true, errors, [], []⟩
    else ⟨[], false, errors, [], []⟩
  | .ok st =>
    match run_bot st inp.bot with
    | ⟨res, stFin, logs⟩ =>
      let warnings := (logs.filter fun r => r.level = .warning).map LogRec.message
      let logErrors := (logs.filter fun r => r.level = .error).map LogRec.message
      let msgs := match res with | .ok m => m | .error _ => []
      let errors := match res with
        | .ok _ => logErrors
        | .error e => logErrors ++ [pyErrorMessage e]
      if (!msgs.isEmpty || !warnings.isEmpty || !errors.isEmpty) &&
          inp.notify && inp.postRaises then
        ⟨[], true, errors, warnings, msgs⟩
      else
        ⟨[stFin], false, errors, warnings, msgs⟩

/-! Helper lemmas: evaluation of `set_field` at each literal field name. -/

theorem set_field_spec_session (s : State) (v t : String) :
    s.set_field "BROWSER_SESSION" v t =
      if v = s.BROWSER_SESSION then .ok (none, s)
      else .ok (some ⟨t, v⟩, { s with BROWSER_SESSION := v }) := rfl

theorem set_field_spec_next (s : State) (v t : String) :
    s.set_field "NEXT_TOUR_MSG" v t =
      if v = s.NEXT_TOUR_MSG then .ok (none, s)
      else .ok (some ⟨t, v⟩, { s with NEXT_TOUR_MSG := v }) := rfl

theorem set_field_spec_available (s : State) (v t : String) :
    s.set_field "TOUR_AVAILABLE" v t =
      if v = s.TOUR_AVAILABLE then .ok (none, s)
      else .ok (some ⟨t, v⟩, { s with TOUR_AVAILABLE := v }) := rfl

theorem set_field_spec_table (s : State) (v t : String) :
    s.set_field "TOUR_TABLE" v t =
      if v = s.TOUR_TABLE then .ok (none, s)
      else .ok (some ⟨t, v⟩, { s with TOUR_TABLE := v }) := rfl

theorem getattr_press_none (s : State) :
    getattrField s "PRESS_RESERVE_BUTTON" = none := rfl

/-- Claim C2: the claim states that the persistent state record carries a
boolean `continuePressingReserve` field alongside the four string fields and
that the automaton's decision is successfully written back through
`set_field`.  In the code, `State` declares only the four string fields:
`getattr` on `PRESS_RESERVE_BUTTON` raises `AttributeError`, so
`set_field('PRESS_RESERVE_BUTTON', …)` fails for every value on a
default-constructed state, a state file declaring the field is rejected by
`State(**json)` (defaults returned), and the `run_bot` reservation branch
aborts with `AttributeError` when it reads `state.PRESS_RESERVE_BUTTON`. -/
theorem press_reserve_field_is_missing :
    getattrField defaultState "PRESS_RESERVE_BUTTON" = none ∧
    (∀ v t : String,
      defaultState.set_field "PRESS_RESERVE_BUTTON" v t = .error .attributeError) ∧
    State.from_file (.jsonObject [("PRESS_RESERVE_BUTTON", "False")]) =
      .ok defaultState :=
  ⟨rfl, fun _ _ => rfl, rfl⟩

/-- Claim C3: `set_field` on an existing field name compares the new value
to the current one by exact equality; when equal it returns no notification
and leaves the state unmutated; when different it mutates exactly that field
and returns a `Notification` carrying the given title and the new value, and
a second call with the same value returns no notification (idempotence). -/
theorem set_field_contract (s : State) (field v cur title : String)
    (hf : getattrField s field = some cur) :
    (v = cur → s.set_field field v title = .ok (none, s)) ∧
    (v ≠ cur →
      s.set_field field v title =
        .ok (some ⟨title, v⟩, setattrField s field v) ∧
      getattrField (setattrField s field v) field = some v ∧
      (∀ g, g ≠ field →
        getattrField (setattrField s field v) g = getattrField s g) ∧
      (setattrField s field v).set_field field v title =
        .ok (none, setattrField s field v)) := by
  have hmem : field = "BROWSER_SESSION" ∨ field = "NEXT_TOUR_MSG" ∨
      field = "TOUR_AVAILABLE" ∨ field = "TOUR_TABLE" := by
    by_contra hc
    push_neg at hc
    obtain ⟨h1, h2, h3, h4⟩ := hc
    simp [getattrField, h1, h2, h3, h4] at hf
  rcases hmem with h | h | h | h <;> subst h <;>
    simp +decide [getattrField] at hf <;> subst hf <;>
    refine ⟨fun hv => by simp +decide [State.set_field, getattrField, hv],
      fun hne => ⟨by simp +decide [State.set_field, getattrField, setattrField, hne],
        by simp +decide [getattrField, setattrField],
        fun g hg => by simp +decide [getattrField, setattrField, hg],
        by simp +decide [State.set_field, getattrField, setattrField]⟩⟩

/-- Witness for C3 at a concrete state and field: the first call with a new
availability value notifies and mutates, the repeated call is silent. -/
theorem set_field_contract_witness :
    defaultState.set_field "TOUR_AVAILABLE" "3 tours available"
        "Tour availability has changed" =
      .ok (some ⟨"Tour availability has changed", "3 tours available"⟩,
        setattrField defaultState "TOUR_AVAILABLE" "3 tours available") ∧
    (setattrField defaultState "TOUR_AVAILABLE" "3 tours available").set_field
        "TOUR_AVAILABLE" "3 tours available" "Tour availability has changed" =
      .ok (none, setattrField defaultState "TOUR_AVAILABLE" "3 tours available") := by
  have h := (set_field_contract defaultState "TOUR_AVAILABLE"
    "3 tours available" "" "Tour availability has changed" rfl).2 (by decide)
  exact ⟨h.1, h.2.2.2⟩

/-- Claim C4: the claim states that loading the persistent state never fails
the run, returning the field-default state on a missing file or on content
that is malformed in any way.  In the code, `json.load` runs outside the
`try` block of `from_file`, so a file whose text is not valid JSON raises
`json.JSONDecodeError` out of `from_file`; inside `main`, the loading error
leaves `state` as `None`, so the run saves nothing and reports an error.
Only a missing file, non-object JSON, or an object with unexpected keys are
recovered with defaults. -/
theorem from_file_raises_on_invalid_json :
    State.from_file (.invalidJson "not json") =
      .error (.jsonDecodeError "Expecting value: line 1 column 1 (char 0)") ∧
    State.from_file .missing = .ok defaultState ∧
    State.from_file .jsonNonObject = .ok defaultState ∧
    State.from_file (.jsonObject [("BROWSER_SESSION", "x"), ("bogus", "y")]) =
      .ok defaultState ∧
    (∀ b : RunBotInputs,
      (mainRun ⟨.invalidJson "not json", b, false, false⟩).savedStates = [] ∧
      (mainRun ⟨.invalidJson "not json", b, false, false⟩).errors =
        ["json.decoder.JSONDecodeError: Expecting value: line 1 column 1 (char 0)"]) :=
  ⟨rfl, rfl, rfl, rfl, fun _ => ⟨rfl, rfl⟩⟩

/-- Claim C10: when, after a search, neither the inline error label nor a
tour-count element is found, the availability summary is the literal
sentinel `"Not found."`, not an error, and it is persisted through
`set_field` like any observed fact. -/
theorem availability_not_found_sentinel :
    get_tour_availability_after_search (.ok ()) none none = .ok "Not found." ∧
    (∀ s : State, ∃ n : Option Notification, ∃ s' : State,
      s.set_field "TOUR_AVAILABLE" "Not found." "Tour availability has changed" =
        .ok (n, s') ∧ s'.TOUR_AVAILABLE = "Not found.") := by
  refine ⟨rfl, fun s => ?_⟩
  by_cases h : "Not found." = s.TOUR_AVAILABLE
  · exact ⟨none, s, by simp [set_field_spec_available, h], h.symm⟩
  · exact ⟨some ⟨"Tour availability has changed", "Not found."⟩,
      { s with TOUR_AVAILABLE := "Not found." },
      by simp [set_field_spec_available, h], rfl⟩

/-! Reservation-candidate selection (claim C1). -/

theorem filterToursParsed_all_parse (lo hi : Nat) (tours : List Tour)
    (hp : ∀ t ∈ tours, (parseDateMDY t.DATE).isSome) :
    filterToursParsed lo hi tours =
      .ok (tours.filter fun t =>
        lo ≤ (parseDateMDY t.DATE).getD 0 && (parseDateMDY t.DATE).getD 0 ≤ hi) := by
  induction tours with
  | nil => rfl
  | cons t rest ih =>
    obtain ⟨k, hk⟩ := Option.isSome_iff_exists.mp (hp t (by simp))
    have hrest := ih fun x hx => hp x (by simp [hx])
    simp only [filterToursParsed, hk, hrest, Except.map, List.filter_cons,
      Option.getD_some]

theorem filterToursParsed_unparsable (lo hi : Nat) (tours : List Tour)
    (hp : ∃ t ∈ tours, parseDateMDY t.DATE = none) :
    filterToursParsed lo hi tours =
      .error (.valueError "time data does not match format %m/%d/%Y") := by
  induction tours with
  | nil => simp at hp
  | cons t rest ih =>
    rcases hp with ⟨x, hx, hnone⟩
    rcases List.mem_cons.mp hx with h | h
    · subst h
      simp [filterToursParsed, hnone]
    · cases ht : parseDateMDY t.DATE with
      | none => simp [filterToursParsed, ht]
      | some k => simp [filterToursParsed, ht, ih ⟨x, h, hnone⟩, Except.map]

/-- Claim C1 (amended): provided every row's date parses with the fixed
`%m/%d/%Y` format, reservation-candidate selection picks the first row, in
original table order, whose date lies within `[min(range), max(range)]`
inclusive (or no candidate); but a row whose date fails to parse is NOT
skipped - `strptime` raises `ValueError` inside the comprehension, aborting
the whole candidate search. -/
theorem candidate_selection (tours : List Tour) (range : List Nat)
    (lo hi : Nat) (hlo : pyMin range = .ok lo) (hhi : pyMax range = .ok hi) :
    ((∀ t ∈ tours, (parseDateMDY t.DATE).isSome) →
      selectReservationCandidate tours range =
        .ok ((tours.filter fun t =>
          lo ≤ (parseDateMDY t.DATE).getD 0 &&
            (parseDateMDY t.DATE).getD 0 ≤ hi).head?)) ∧
    ((∃ t ∈ tours, parseDateMDY t.DATE = none) →
      selectReservationCandidate tours range =
        .error (.valueError "time data does not match format %m/%d/%Y")) := by
  cases tours with
  | nil =>
    refine ⟨fun _ => rfl, fun hp => ?_⟩
    simp at hp
  | cons t rest =>
    constructor
    · intro hp
      simp only [selectReservationCandidate, toursInRange, hlo, hhi,
        filterToursParsed_all_parse lo hi (t :: rest) hp, bind, Except.bind,
        Except.map]
    · intro hp
      simp only [selectReservationCandidate, toursInRange, hlo, hhi,
        filterToursParsed_unparsable lo hi (t :: rest) hp, bind, Except.bind,
        Except.map]

/-- Counterexample input for C1: the first row's date text does not parse,
the second row is parseable and in range. -/
def c1Tours : List Tour :=
  [⟨"TBD", "9:00 AM", none⟩, ⟨"03/05/2025", "9:00 AM - 11:00 AM", some 1⟩]

/-- Counterexample range for C1: March 2025. -/
def c1Range : List Nat := [dateKey 2025 3 1, dateKey 2025 3 31]

/-- Counterexample for C1 as stated: with an unparsable date in the first
row, the candidate search raises `ValueError` instead of skipping that row
and returning the parseable in-range second row. -/
theorem candidate_selection_counterexample :
    selectReservationCandidate c1Tours c1Range =
      .error (.valueError "time data does not match format %m/%d/%Y") ∧
    selectReservationCandidate c1Tours c1Range ≠
      .ok (some ⟨"03/05/2025", "9:00 AM - 11:00 AM", some 1⟩) := by decide

/-- Witness for C1 at concrete rows: all dates parse, and the first in-range
row (the second row of the table) is selected. -/
theorem candidate_selection_witness :
    selectReservationCandidate
      [⟨"03/02/2025", "9:00 AM", some 1⟩, ⟨"03/05/2025", "10:00 AM", some 2⟩,
        ⟨"03/06/2025", "11:00 AM", some 3⟩]
      [dateKey 2025 3 4, dateKey 2025 3 31] =
      .ok (some ⟨"03/05/2025", "10:00 AM", some 2⟩) := by
  have h := (candidate_selection
    [⟨"03/02/2025", "9:00 AM", some 1⟩, ⟨"03/05/2025", "10:00 AM", some 2⟩,
      ⟨"03/06/2025", "11:00 AM", some 3⟩]
    [dateKey 2025 3 4, dateKey 2025 3 31]
    (dateKey 2025 3 4) (dateKey 2025 3 31) (by decide) (by decide)).1 (by decide)
  rw [h]
  decide

/-! The countdown wait (claim C8). -/

/-- Concrete tour row for the C8 reservation-flow conjunct. -/
def c8Tours : List Tour := [⟨"03/05/2025", "9:00 AM", some 1⟩]

/-- Concrete range for the C8 reservation-flow conjunct. -/
def c8Range : List Nat := [dateKey 2025 3 1, dateKey 2025 3 31]

/-- Claim C8: the countdown element's text is parsed as `minutes:seconds`
and the suspension lasts the parsed duration plus a fixed 5-minute margin -
for `"07:30"` exactly 12 minutes 30 seconds - and a `KeyboardInterrupt`
during the sleep is caught, so the automaton proceeds to the confirmation
step rather than failing (the whole flow still reaches the confirmation
prompt and processes its answer when interrupted). -/
theorem countdown_wait :
    (∀ (text : String) (m s : Nat) (i : Bool), parseClockMS text = some (m, s) →
      reservationWait text i =
        .ok (m * 60 + s + 5 * 60,
          if i then "Continuing early." else "Finished waiting.")) ∧
    parseClockMS "07:30" = some (7, 30) ∧
    (∀ i : Bool, reservationWait "07:30" i =
      .ok (12 * 60 + 30,
        if i then "Continuing early." else "Finished waiting.")) ∧
    open_tour_reservation c8Tours c8Range (.ok "07:30") true true (some "y") =
      .ok false := by
  refine ⟨fun text m s i h => ?_, rfl, fun i => ?_, ?_⟩
  · simp [reservationWait, h]
    omega
  · cases i <;> decide
  · decide

/-- Witness for C8: the parse hypothesis discharged at `"07:30"` with an
uninterrupted sleep. -/
theorem countdown_wait_witness :
    reservationWait "07:30" false = .ok (7 * 60 + 30 + 5 * 60, "Finished waiting.") := by
  have h := countdown_wait.1 "07:30" 7 30 false rfl
  simpa using h

/-! Closed forms of `set_field` at each literal field: the call always
succeeds, the field afterwards holds the new value, and a notification is
returned exactly when the value changed. -/

theorem set_field_next_ok (s : State) (v t : String) :
    s.set_field "NEXT_TOUR_MSG" v t =
      .ok (if v = s.NEXT_TOUR_MSG then none else some ⟨t, v⟩,
        { s with NEXT_TOUR_MSG := v }) := by
  by_cases h : v = s.NEXT_TOUR_MSG <;>
    simp only [set_field_spec_next, if_pos, if_neg, h, if_true, if_false]

theorem set_field_avail_ok (s : State) (v t : String) :
    s.set_field "TOUR_AVAILABLE" v t =
      .ok (if v = s.TOUR_AVAILABLE then none else some ⟨t, v⟩,
        { s with TOUR_AVAILABLE := v }) := by
  by_cases h : v = s.TOUR_AVAILABLE <;>
    simp only [set_field_spec_available, if_pos, if_neg, h, if_true, if_false]

theorem set_field_table_ok (s : State) (v t : String) :
    s.set_field "TOUR_TABLE" v t =
      .ok (if v = s.TOUR_TABLE then none else some ⟨t, v⟩,
        { s with TOUR_TABLE := v }) := by
  by_cases h : v = s.TOUR_TABLE <;>
    simp only [set_field_spec_table, if_pos, if_neg, h, if_true, if_false]

/-- Claim C6 (amended): when the text after the `Next Tours Release Date`
heading is absent, the scraped message is the class default `"(empty)"`, not
the previously persisted value; the previous value is kept (no mutation, no
notification) exactly when it already equals `"(empty)"`, and otherwise the
field is overwritten with `"(empty)"` and a change notification is
emitted. -/
theorem release_message_absent (s : State) :
    (s.NEXT_TOUR_MSG = "(empty)" → nextTourMsgStep s none = .ok (none, s)) ∧
    (s.NEXT_TOUR_MSG ≠ "(empty)" →
      nextTourMsgStep s none =
        .ok (some ⟨"Next tour message has changed", "(empty)"⟩,
          { s with NEXT_TOUR_MSG := "(empty)" })) := by
  have hdef : get_next_tour_release_date none = "(empty)" := rfl
  constructor <;> intro h
  · rw [nextTourMsgStep, hdef, set_field_spec_next, if_pos h.symm]
  · rw [nextTourMsgStep, hdef, set_field_spec_next,
      if_neg fun hc => h hc.symm]

/-- Prior state for the C6 counterexample: a previously persisted release
message. -/
def c6State : State := { NEXT_TOUR_MSG := "Tours will be released on March 1, 2025" }

/-- Page observations for the C6 counterexample: the release-date heading
text is absent, the inline error label reports no tours. -/
def c6Inputs : ScrapeInputs :=
  { nextMsgElement := none, formResult := .ok (), resultsWait := .ok (),
    errMsgElement := some "No tours are available.", tourCountElement := none,
    tableContainer := none, tableParse := .ok ([], []) }

/-- Counterexample for C6 as stated: with a previously persisted release
message and the heading text absent, the field is mutated to `"(empty)"` and
a notification for it is emitted - the previous value is not kept. -/
theorem release_message_absent_counterexample :
    nextTourMsgStep c6State none =
      .ok (some ⟨"Next tour message has changed", "(empty)"⟩,
        { c6State with NEXT_TOUR_MSG := "(empty)" }) ∧
    nextTourMsgStep c6State none ≠ .ok (none, c6State) ∧
    (scrape_tour c6State c6Inputs).state.NEXT_TOUR_MSG = "(empty)" ∧
    (scrape_tour c6State c6Inputs).result =
      .ok ([⟨"Next tour message has changed", "(empty)"⟩,
        ⟨"Tour availability has changed", "No tours are available."⟩], []) := by
  decide

/-- Witness for C6: when the previous value is already `"(empty)"`, the
absent heading indeed leaves the state unmutated with no notification. -/
theorem release_message_absent_witness :
    nextTourMsgStep defaultState none = .ok (none, defaultState) :=
  (release_message_absent defaultState).1 rfl

/-! The malformed-table fallback (claim C9). -/

theorem scrape_tour_parse_error (s : State) (inp : ScrapeInputs)
    (html : String) (e : PyError) (avail : String)
    (hform : inp.formResult = .ok ())
    (hav : get_tour_availability_after_search inp.resultsWait
      inp.errMsgElement inp.tourCountElement = .ok avail)
    (hc : inp.tableContainer = some html)
    (hp : inp.tableParse = .error e) :
    ∃ msgs, scrape_tour s inp =
      ⟨.ok (msgs, []),
        { s with NEXT_TOUR_MSG := get_next_tour_release_date inp.nextMsgElement,
                 TOUR_AVAILABLE := avail,
                 TOUR_TABLE := codeBlock html "html" },
        [⟨.error, "Could not parse the table of available tours"⟩]⟩ := by
  simp only [scrape_tour, nextTourMsgStep, set_field_next_ok, hform, hav,
    set_field_avail_ok, hc, hp, set_field_table_ok]
  exact ⟨_, rfl⟩

/-- Claim C9 (amended): when the `available_tours` container exists but
parsing it raises any exception, the run does not abort - `run_bot` still
returns normally, the persisted `TOUR_TABLE` field falls back to the raw
container markup wrapped as an html code block, an ERROR-level record (from
`LOGGER.exception`, not a warning) is logged, and the run continues to
reservation-target evaluation with no structured rows, so no candidate is
pressed. -/
theorem table_parse_fallback (s : State) (b : RunBotInputs) (html : String)
    (e : PyError) (avail : String)
    (hsid : b.sessionId ≠ s.BROWSER_SESSION)
    (hform : b.scrape.formResult = .ok ())
    (hav : get_tour_availability_after_search b.scrape.resultsWait
      b.scrape.errMsgElement b.scrape.tourCountElement = .ok avail)
    (hc : b.scrape.tableContainer = some html)
    (hp : b.scrape.tableParse = .error e) :
    ∃ msgs s', run_bot s b =
      ⟨.ok msgs, s', [⟨.error, "Could not parse the table of available tours"⟩]⟩ ∧
      s'.TOUR_TABLE = codeBlock html "html" := by
  obtain ⟨msgs, hscrape⟩ := scrape_tour_parse_error
    { s with BROWSER_SESSION := b.sessionId } b.scrape html e avail hform hav hc hp
  refine ⟨msgs,
    { s with BROWSER_SESSION := b.sessionId,
             NEXT_TOUR_MSG := get_next_tour_release_date b.scrape.nextMsgElement,
             TOUR_AVAILABLE := avail, TOUR_TABLE := codeBlock html "html" },
    ?_, rfl⟩
  rw [run_bot, if_neg hsid]
  simp only [hscrape]
  cases hr : b.reserveDateRange with
  | none => simp
  | some range =>
    cases range with
    | nil => simp
    | cons a t => simp

/-- Browser observations for the C9 counterexample: the search succeeded and
found tours, but the results table markup is mangled and parsing it throws. -/
def c9Scrape : ScrapeInputs :=
  { nextMsgElement := none, formResult := .ok (), resultsWait := .ok (),
    errMsgElement := none, tourCountElement := some "3 tours available",
    tableContainer := some "<table><tr>mangled", tableParse := .error (.other "RuntimeError: bad table") }

/-- Bot inputs for the C9 counterexample, with a reservation range
requested. -/
def c9Bot : RunBotInputs :=
  { sessionId := "abc123", scrape := c9Scrape,
    reserveDateRange := some [dateKey 2025 3 1, dateKey 2025 3 31],
    clockText := .ok "07:30", interrupted := false, stdinTTY := false,
    answer := none }

/-- Counterexample for C9 as stated: on a table-parse failure the logged
record is at ERROR level - no warning-level record exists, and the captured
message reaches the run's error list (so the run completes with errors),
while the claim states a warning is logged. -/
theorem table_parse_fallback_counterexample :
    (run_bot defaultState c9Bot).logs =
      [⟨.error, "Could not parse the table of available tours"⟩] ∧
    ((run_bot defaultState c9Bot).logs.filter fun r => r.level = .warning) = [] ∧
    (run_bot defaultState c9Bot).state.TOUR_TABLE =
      codeBlock "<table><tr>mangled" "html" ∧
    (mainRun ⟨.missing, c9Bot, false, false⟩).warnings = [] ∧
    (mainRun ⟨.missing, c9Bot, false, false⟩).errors =
      ["Could not parse the table of available tours"] := by
  decide

/-- Witness for C9: the amended theorem applied at the concrete
counterexample inputs. -/
theorem table_parse_fallback_witness :
    ∃ msgs s', run_bot defaultState c9Bot =
      ⟨.ok msgs, s', [⟨.error, "Could not parse the table of available tours"⟩]⟩ ∧
      s'.TOUR_TABLE = codeBlock "<table><tr>mangled" "html" :=
  table_parse_fallback defaultState c9Bot "<table><tr>mangled"
    (.other "RuntimeError: bad table") "3 tours available"
    (by decide) rfl rfl rfl rfl

/-! State persistence across the run (claim C5). -/

theorem scrape_tour_preserves_session (s : State) (inp : ScrapeInputs) :
    (scrape_tour s inp).state.BROWSER_SESSION = s.BROWSER_SESSION := by
  simp only [scrape_tour, nextTourMsgStep, set_field_next_ok]
  cases hf : inp.formResult with
  | error e => simp
  | ok u =>
    cases u
    cases hav : get_tour_availability_after_search inp.resultsWait
        inp.errMsgElement inp.tourCountElement with
    | error e => simp
    | ok avail =>
      simp only [set_field_avail_ok]
      cases hc : inp.tableContainer with
      | none => simp
      | some html =>
        cases hp : inp.tableParse with
        | error e => simp [set_field_table_ok]
        | ok pr =>
          obtain ⟨td, th⟩ := pr
          simp [set_field_table_ok]

theorem run_bot_session (s : State) (b : RunBotInputs)
    (h : b.sessionId ≠ s.BROWSER_SESSION) :
    (run_bot s b).state.BROWSER_SESSION = b.sessionId := by
  have hs := scrape_tour_preserves_session
    { s with BROWSER_SESSION := b.sessionId } b.scrape
  rw [run_bot, if_neg h]
  cases hscrape : scrape_tour { s with BROWSER_SESSION := b.sessionId } b.scrape with
  | mk res st lg =>
    rw [hscrape] at hs
    simp only [hscrape]
    cases res with
    | error e => simpa using hs
    | ok pr =>
      obtain ⟨msgs, tours⟩ := pr
      cases b.reserveDateRange with
      | none => simpa using hs
      | some range =>
        by_cases hrange : range = []
        · simpa [hrange] using hs
        · by_cases htours : tours = []
          · simpa [hrange, htours] using hs
          · simpa [hrange, htours, getattr_press_none] using hs

/-- Claim C5 (amended): for every run in which the state was successfully
loaded and the notification post does not raise, the state is written to
storage exactly once at run end - also on every pipeline error path, because
`StoreWarningsErrors.__exit__` suppresses the exception - and the written
state reflects the session-identifier update made before scraping began.
When `post_discord` raises (it runs outside any handler, before the save),
the run crashes with zero writes, so the write is not unconditional as the
claim states. -/
theorem state_saved_once (inp : MainInputs) (st : State)
    (hload : State.from_file inp.stateFile = .ok st)
    (hpost : inp.postRaises = false) :
    ∃ stFin, (mainRun inp).savedStates = [stFin] ∧
      (mainRun inp).uncaught = false ∧
      (inp.bot.sessionId ≠ st.BROWSER_SESSION →
        stFin.BROWSER_SESSION = inp.bot.sessionId) := by
  cases hbot : run_bot st inp.bot with
  | mk res stF lg =>
    refine ⟨stF, ?_, ?_, fun hne => ?_⟩
    · simp [mainRun, hload, hbot, hpost]
    · simp [mainRun, hload, hbot, hpost]
    · have hsess := run_bot_session st inp.bot hne
      rw [hbot] at hsess
      exact hsess

/-- Scrape observations for the C5 counterexample: the run succeeds and
produces a notification (the availability summary changed). -/
def c5Scrape : ScrapeInputs :=
  { nextMsgElement := some "Tours will be released on June 1", formResult := .ok (),
    resultsWait := .ok (), errMsgElement := none,
    tourCountElement := some "3 tours available", tableContainer := none,
    tableParse := .ok ([], []) }

/-- Bot inputs for the C5 counterexample and witness. -/
def c5Bot : RunBotInputs :=
  { sessionId := "abc123", scrape := c5Scrape, reserveDateRange := none,
    clockText := .ok "07:30", interrupted := false, stdinTTY := false,
    answer := none }

/-- Counterexample for C5 as stated: a run whose state loaded successfully
and which produced notifications, but whose notification post raises -
`post_discord` runs before the save and outside any handler, so the run
crashes and the state is saved zero times, not exactly once. -/
theorem state_saved_once_counterexample :
    State.from_file .missing = .ok defaultState ∧
    (mainRun ⟨.missing, c5Bot, true, true⟩).savedStates = [] ∧
    (mainRun ⟨.missing, c5Bot, true, true⟩).uncaught = true ∧
    (mainRun ⟨.missing, c5Bot, true, true⟩).notifications ≠ [] := by decide

/-- Witness for C5: the same run with a healthy notification post saves
exactly once, and the saved state carries the fresh session identifier. -/
theorem state_saved_once_witness :
    ∃ stFin, (mainRun ⟨.missing, c5Bot, true, false⟩).savedStates = [stFin] ∧
      (mainRun ⟨.missing, c5Bot, true, false⟩).uncaught = false ∧
      ((⟨.missing, c5Bot, true, false⟩ : MainInputs).bot.sessionId ≠
          defaultState.BROWSER_SESSION →
        stFin.BROWSER_SESSION =
          (⟨.missing, c5Bot, true, false⟩ : MainInputs).bot.sessionId) :=
  state_saved_once ⟨.missing, c5Bot, true, false⟩ defaultState rfl rfl

/-! The mutation paths of the state during a run (claim C7). -/

theorem scrape_tour_ok_spec (s : State) (inp : ScrapeInputs)
    (msgs : List Notification) (tours : List Tour) (s' : State)
    (lg : List LogRec)
    (h : scrape_tour s inp = ⟨.ok (msgs, tours), s', lg⟩) :
    (s'.NEXT_TOUR_MSG ≠ s.NEXT_TOUR_MSG →
      (⟨"Next tour message has changed", s'.NEXT_TOUR_MSG⟩ : Notification) ∈ msgs) ∧
    (s'.TOUR_AVAILABLE ≠ s.TOUR_AVAILABLE →
      (⟨"Tour availability has changed", s'.TOUR_AVAILABLE⟩ : Notification) ∈ msgs) ∧
    (s'.TOUR_TABLE ≠ s.TOUR_TABLE →
      (⟨"Tour details", s'.TOUR_TABLE⟩ : Notification) ∈ msgs) := by
  simp only [scrape_tour, nextTourMsgStep, set_field_next_ok] at h
  cases hf : inp.formResult with
  | error e => simp [hf] at h
  | ok u =>
    cases u
    simp only [hf] at h
    cases hav : get_tour_availability_after_search inp.resultsWait
        inp.errMsgElement inp.tourCountElement with
    | error e => simp [hav] at h
    | ok avail =>
      simp only [hav, set_field_avail_ok] at h
      cases hc : inp.tableContainer with
      | none =>
        simp only [hc, ScrapeResult.mk.injEq, Except.ok.injEq,
          Prod.mk.injEq] at h
        obtain ⟨⟨hm, ht⟩, hs, hl⟩ := h
        subst hm
        subst hs
        refine ⟨fun hne => ?_, fun hne => ?_, fun hne => ?_⟩ <;>
          [by_cases h1 : get_next_tour_release_date inp.nextMsgElement =
            s.NEXT_TOUR_MSG;
           by_cases h1 : avail = s.TOUR_AVAILABLE;
           skip] <;>
          simp_all
      | some html =>
        cases hp : inp.tableParse with
        | error e =>
          simp only [hc, hp, set_field_table_ok, ScrapeResult.mk.injEq,
            Except.ok.injEq, Prod.mk.injEq] at h
          obtain ⟨⟨hm, ht⟩, hs, hl⟩ := h
          subst hm
          subst hs
          refine ⟨fun hne => ?_, fun hne => ?_, fun hne => ?_⟩ <;>
            [by_cases h1 : get_next_tour_release_date inp.nextMsgElement =
              s.NEXT_TOUR_MSG;
             by_cases h1 : avail = s.TOUR_AVAILABLE;
             by_cases h1 : codeBlock html "html" = s.TOUR_TABLE] <;>
            simp_all
        | ok pr =>
          obtain ⟨td, th⟩ := pr
          simp only [hc, hp, set_field_table_ok, ScrapeResult.mk.injEq,
            Except.ok.injEq, Prod.mk.injEq] at h
          obtain ⟨⟨hm, ht⟩, hs, hl⟩ := h
          subst hm
          subst hs
          refine ⟨fun hne => ?_, fun hne => ?_, fun hne => ?_⟩ <;>
            [by_cases h1 : get_next_tour_release_date inp.nextMsgElement =
              s.NEXT_TOUR_MSG;
             by_cases h1 : avail = s.TOUR_AVAILABLE;
             by_cases h1 : codeBlock (format_available_tours_table td th) "text" =
              s.TOUR_TABLE] <;>
            simp_all

/-- Claim C7 (amended): during a successful run, the three observed-fact
fields (`NEXT_TOUR_MSG`, `TOUR_AVAILABLE`, `TOUR_TABLE`) are mutated only
through `set_field`, so each of them changes only together with a
change-notification carrying its new value - but `set_field` is not the
single mutation path: `run_bot` mutates `BROWSER_SESSION` by direct
assignment (line 64), bypassing `set_field`, and the run's notifications
never report that write. -/
theorem single_mutation_path (s : State) (b : RunBotInputs)
    (msgs : List Notification) (s' : State) (lg : List LogRec)
    (h : run_bot s b = ⟨.ok msgs, s', lg⟩) :
    s'.BROWSER_SESSION = b.sessionId ∧
    (s'.NEXT_TOUR_MSG ≠ s.NEXT_TOUR_MSG →
      (⟨"Next tour message has changed", s'.NEXT_TOUR_MSG⟩ : Notification) ∈ msgs) ∧
    (s'.TOUR_AVAILABLE ≠ s.TOUR_AVAILABLE →
      (⟨"Tour availability has changed", s'.TOUR_AVAILABLE⟩ : Notification) ∈ msgs) ∧
    (s'.TOUR_TABLE ≠ s.TOUR_TABLE →
      (⟨"Tour details", s'.TOUR_TABLE⟩ : Notification) ∈ msgs) := by
  by_cases hg : b.sessionId = s.BROWSER_SESSION
  · rw [run_bot, if_pos hg] at h
    simp at h
  · rw [run_bot, if_neg hg] at h
    cases hscrape : scrape_tour { s with BROWSER_SESSION := b.sessionId }
        b.scrape with
    | mk res st lgs =>
      simp only [hscrape] at h
      cases res with
      | error e => simp at h
      | ok pr =>
        obtain ⟨m0, tours0⟩ := pr
        have hkey : msgs = m0 ∧ s' = st := by
          cases hr : b.reserveDateRange with
          | none =>
            simp only [hr, BotResult.mk.injEq, Except.ok.injEq] at h
            exact ⟨h.1.symm, h.2.1.symm⟩
          | some range =>
            by_cases hrange : range = []
            · simp only [hr, hrange, if_pos, BotResult.mk.injEq,
                Except.ok.injEq] at h
              exact ⟨h.1.symm, h.2.1.symm⟩
            · by_cases htours : tours0 = []
              · simp only [hr, hrange, htours, if_neg, if_pos,
                  BotResult.mk.injEq, Except.ok.injEq] at h
                simp_all
              · simp only [hr, hrange, htours, if_neg,
                  getattr_press_none] at h
                simp_all
        obtain ⟨hm, hs⟩ := hkey
        subst hm
        subst hs
        have hsess := scrape_tour_preserves_session
          { s with BROWSER_SESSION := b.sessionId } b.scrape
        rw [hscrape] at hsess
        have hspec := scrape_tour_ok_spec _ _ _ _ _ _ hscrape
        exact ⟨by simpa using hsess, hspec.1, hspec.2.1, hspec.2.2⟩

/-- Prior state for the C7 counterexample: a stored session identifier. -/
def c7State : State := { BROWSER_SESSION := "abc123" }

/-- Quiet scrape inputs for the C7 counterexample: nothing changes, so no
notification is produced. -/
def c7Scrape : ScrapeInputs :=
  { nextMsgElement := none, formResult := .ok (), resultsWait := .ok (),
    errMsgElement := some "", tourCountElement := none, tableContainer := none,
    tableParse := .ok ([], []) }

/-- Bot inputs for the C7 counterexample with an unchanged session id. -/
def c7BotEq : RunBotInputs :=
  { sessionId := "abc123", scrape := c7Scrape, reserveDateRange := none,
    clockText := .ok "07:30", interrupted := false, stdinTTY := false,
    answer := none }

/-- Bot inputs for the C7 counterexample with a fresh session id. -/
def c7BotNew : RunBotInputs :=
  { sessionId := "xyz789", scrape := c7Scrape, reserveDateRange := none,
    clockText := .ok "07:30", interrupted := false, stdinTTY := false,
    answer := none }

/-- Counterexample for C7 as stated: the `BROWSER_SESSION` write in
`run_bot` is not `set_field`.  At the same prior state and value,
`set_field` would no-op and return no notification where `run_bot` raises
`ValueError`; and with a fresh identifier `run_bot` writes the field while
returning no notification at all, although `set_field` - the claimed single
choke point - returns a change notification for that exact write. -/
theorem single_mutation_path_counterexample :
    (run_bot c7State c7BotEq).result =
      .error (.valueError
        "The session ID has not changed from the saved state. Aborting.") ∧
    c7State.set_field "BROWSER_SESSION" "abc123" "Browser session" =
      .ok (none, c7State) ∧
    (run_bot c7State c7BotNew).result = .ok [] ∧
    (run_bot c7State c7BotNew).state.BROWSER_SESSION = "xyz789" ∧
    c7State.set_field "BROWSER_SESSION" "xyz789" "Browser session" =
      .ok (some ⟨"Browser session", "xyz789"⟩,
        { c7State with BROWSER_SESSION := "xyz789" }) := by
  decide

/-- Witness for C7: the amended theorem applied to the concrete quiet run
with a fresh session identifier. -/
theorem single_mutation_path_witness :
    ({ BROWSER_SESSION := "xyz789" } : State).BROWSER_SESSION =
      c7BotNew.sessionId ∧
    (({ BROWSER_SESSION := "xyz789" } : State).NEXT_TOUR_MSG ≠
        c7State.NEXT_TOUR_MSG →
      (⟨"Next tour message has changed",
        ({ BROWSER_SESSION := "xyz789" } : State).NEXT_TOUR_MSG⟩ : Notification) ∈
        ([] : List Notification)) ∧
    (({ BROWSER_SESSION := "xyz789" } : State).TOUR_AVAILABLE ≠
        c7State.TOUR_AVAILABLE →
      (⟨"Tour availability has changed",
        ({ BROWSER_SESSION := "xyz789" } : State).TOUR_AVAILABLE⟩ : Notification) ∈
        ([] : List Notification)) ∧
    (({ BROWSER_SESSION := "xyz789" } : State).TOUR_TABLE ≠ c7State.TOUR_TABLE →
      (⟨"Tour details",
        ({ BROWSER_SESSION := "xyz789" } : State).TOUR_TABLE⟩ : Notification) ∈
        ([] : List Notification)) :=
  single_mutation_path c7State c7BotNew [] { BROWSER_SESSION := "xyz789" } []
    (by decide)

end JplTourBot
